import Mathlib

/-!
Verification development for the forex-factory calendar scraper
(`app.py`, `utils.py`, `convex_client.py`).

The Python sources are shallowly embedded: pure functions become Lean
functions, the module-global run status becomes explicit state passing,
fallible calls become `Option`, and the effects of external collaborators
(the pytz timezone database, the pandas CSV writer, the Convex client and
network) become explicit parameters.  `config.py` is not part of the
sources; the definitions that stand in for it are modelled from the spec
and marked as such.
-/

namespace ForexScraper

/-! ## String helpers shared by several embedded functions -/

/-- Word character in the sense of the `re` module's `\b` and `\w`
(ASCII fragment: letters, digits, underscore). -/
def isWordChar (c : Char) : Bool :=
  c.isAlpha || c.isDigit || c == '_'

/-- Numeric value of a digit character. -/
def digitVal (c : Char) : Nat := c.toNat - 48

/-- Character for a single digit. -/
def digitChar (n : Nat) : Char := Char.ofNat (48 + n)

/-- Zero-padded two-digit rendering of `n < 100`, as Python's
`f"{n:02d}"` produces for the day/month numbers handled here. -/
def pad2 (n : Nat) : String :=
  String.mk [digitChar (n / 10 % 10), digitChar (n % 10)]

/-- Python's `str.lower()` (the ASCII fragment exercised by the
scraper's strings: month selectors, impact colors, time sentinels). -/
def pyLower (s : String) : String :=
  String.mk (s.data.map Char.toLower)

/-- Python's `str.strip()`: drop whitespace from both ends. -/
def pyStrip (s : String) : String :=
  String.mk (((s.data.dropWhile Char.isWhitespace).reverse.dropWhile Char.isWhitespace).reverse)

/-! ## `utils.extract_date_parts`

Embeds the regex search
`\b(Mon|Tue|Wed|Thu|Fri|Sat|Sun)\b\s+(Jan|...|Dec)\b\s+(\d{1,2})\b`
(`re.search`: leftmost match) followed by formatting the result as
`dd/mm/<year>`. -/

def dayAbbrevs : List String :=
  ["Mon", "Tue", "Wed", "Thu", "Fri", "Sat", "Sun"]

def monthAbbrevs : List String :=
  ["Jan", "Feb", "Mar", "Apr", "May", "Jun", "Jul", "Aug", "Sep", "Oct", "Nov", "Dec"]

/-- Month abbreviation to month number, as
`datetime.strptime(month_abbr, "%b").month` computes it. -/
def monthNumber (a : String) : Nat :=
  (monthAbbrevs.indexOf a) + 1

/-- Try one fixed-word alternative of a regex alternation at the head of
`cs`; the abbreviations are pairwise distinct so order is immaterial. -/
def matchAbbrev (abbrevs : List String) (cs : List Char) : Option (String × List Char) :=
  abbrevs.findSome? fun a =>
    if cs.take a.length = a.data then some (a, cs.drop a.length) else none

/-- `\s+` (greedy; the following token is never whitespace, so no
backtracking is needed). -/
def skipWS1 : List Char → Option (List Char)
  | c :: rest => if c.isWhitespace then some (rest.dropWhile Char.isWhitespace) else none
  | [] => none

/-- `(\d{1,2})\b` with the regex engine's greedy backtracking: two digits
are taken when the next character is a non-word character or the end;
otherwise one digit is taken when the following character is a non-word
character or the end (a second digit after it blocks the boundary). -/
def matchDayNum : List Char → Option Nat
  | [] => none
  | [d1] => if d1.isDigit then some (digitVal d1) else none
  | d1 :: d2 :: rest =>
    if d1.isDigit then
      if d2.isDigit then
        match rest with
        | [] => some (10 * digitVal d1 + digitVal d2)
        | c :: _ => if isWordChar c then none else some (10 * digitVal d1 + digitVal d2)
      else
        if isWordChar d2 then none else some (digitVal d1)
    else none

/-- Attempt the full date pattern anchored at the current position;
returns weekday abbreviation, month number and day number. -/
def tryMatchAt (cs : List Char) : Option (String × Nat × Nat) :=
  match matchAbbrev dayAbbrevs cs with
  | none => none
  | some (dayA, cs1) =>
    match skipWS1 cs1 with
    | none => none
    | some cs2 =>
      match matchAbbrev monthAbbrevs cs2 with
      | none => none
      | some (monA, cs3) =>
        match skipWS1 cs3 with
        | none => none
        | some cs4 =>
          match matchDayNum cs4 with
          | none => none
          | some n => some (dayA, monthNumber monA, n)

/-- `re.search`: try every start position left to right; the leading `\b`
admits a start only after a non-word character (or at the beginning). -/
def searchDate : Bool → List Char → Option (String × Nat × Nat)
  | _, [] => none
  | prevW, cs@(c :: rest) =>
    match if prevW then none else tryMatchAt cs with
    | some r => some r
    | none => searchDate (isWordChar c) rest

structure DateParts where
  day : String
  date : String
deriving DecidableEq, Repr

/-- `dd/mm/<year>` with zero-padded day and month, the shape produced by
`f"{day:02d}/{month_number:02d}/{year}"`. -/
def formatDMY (d m : Nat) (year : String) : String :=
  String.mk ([digitChar (d / 10 % 10), digitChar (d % 10), '/',
              digitChar (m / 10 % 10), digitChar (m % 10), '/'] ++ year.data)

/-- `utils.extract_date_parts`. -/
def extract_date_parts (text : String) (year : String) : Option DateParts :=
  match searchDate false text.data with
  | some (dayA, monNum, dayNum) =>
    some { day := dayA, date := formatDMY dayNum monNum year }
  | none => none

/-! ## `utils.convert_time_zone`

`datetime.strptime(f"{date_str} {time_str}", "%d/%m/%Y %I:%M%p")` is
embedded directive by directive (each numeric directive is a two-digit
alternation tried before the one-digit one, with regex backtracking);
`datetime` range validation is included.  The pytz zone lookup,
`localize` and `astimezone` consult the external timezone database, so
they are modelled as a parameter `TZEnv` returning `none` for any of
their exceptions. -/

structure NaiveDT where
  year : Nat
  month : Nat
  day : Nat
  hour : Nat
  minute : Nat
deriving DecidableEq, Repr

/-- External timezone conversion: source zone, target zone, naive local
datetime; `none` models any pytz exception (unknown zone etc.). -/
def TZEnv := String → String → NaiveDT → Option NaiveDT

/-- Candidates of a 1-or-2-digit numeric directive whose value lies in
`[lo, hi]`, in regex alternation order (two digits first). -/
def numCands (lo hi : Nat) (cs : List Char) : List (Nat × List Char) :=
  (match cs with
   | c1 :: c2 :: rest =>
     if c1.isDigit && c2.isDigit
        && lo ≤ 10 * digitVal c1 + digitVal c2
        && 10 * digitVal c1 + digitVal c2 ≤ hi then
       [(10 * digitVal c1 + digitVal c2, rest)]
     else []
   | _ => []) ++
  (match cs with
   | c1 :: _ =>
     if c1.isDigit && lo ≤ digitVal c1 && digitVal c1 ≤ hi then
       [(digitVal c1, cs.drop 1)]
     else []
   | [] => [])

/-- A literal character of the format string. -/
def parseLit (c : Char) : List Char → Option (List Char)
  | x :: rest => if x == c then some rest else none
  | [] => none

/-- `%Y`: exactly four digits. -/
def parse4Digits : List Char → Option (Nat × List Char)
  | a :: b :: c :: d :: rest =>
    if a.isDigit && b.isDigit && c.isDigit && d.isDigit then
      some (1000 * digitVal a + 100 * digitVal b + 10 * digitVal c + digitVal d, rest)
    else none
  | _ => none

/-- `%p`: `AM` or `PM`, case-insensitively; `true` means pm. -/
def parseAmPm : List Char → Option (Bool × List Char)
  | a :: b :: rest =>
    if (a == 'a' || a == 'A') && (b == 'm' || b == 'M') then some (false, rest)
    else if (a == 'p' || a == 'P') && (b == 'm' || b == 'M') then some (true, rest)
    else none
  | _ => none

def isLeapYear (y : Nat) : Bool :=
  (y % 4 == 0 && y % 100 != 0) || y % 400 == 0

def daysInMonth (y m : Nat) : Nat :=
  if m == 2 then (if isLeapYear y then 29 else 28)
  else if m == 4 || m == 6 || m == 9 || m == 11 then 30
  else 31

/-- `datetime` constructor validation reachable from this format:
`MINYEAR ≤ year` and the day exists in the month. -/
def validDate (y m d : Nat) : Bool :=
  1 ≤ y && d ≤ daysInMonth y m

/-- 12-hour value plus am/pm flag to a 24-hour value, as `strptime`
computes it (`12am ↦ 0`, `12pm ↦ 12`). -/
def hour24 (h12 : Nat) (pm : Bool) : Nat :=
  if pm then (if h12 == 12 then 12 else h12 + 12)
  else (if h12 == 12 then 0 else h12)

/-- `datetime.strptime(f"{date_str} {time_str}", "%d/%m/%Y %I:%M%p")`;
`none` models the `ValueError` on any mismatch or invalid date. -/
def strptimeDMYIMp (date_str time_str : String) : Option NaiveDT :=
  let go (cs : List Char) : Option NaiveDT :=
    (numCands 1 31 cs).findSome? fun (d, cs) =>
      (parseLit '/' cs).bind fun cs =>
      (numCands 1 12 cs).findSome? fun (m, cs) =>
        (parseLit '/' cs).bind fun cs =>
        (parse4Digits cs).bind fun (y, cs) =>
        (skipWS1 cs).bind fun cs =>
        (numCands 1 12 cs).findSome? fun (h12, cs) =>
          (parseLit ':' cs).bind fun cs =>
          (numCands 0 59 cs).findSome? fun (mins, cs) =>
            (parseAmPm cs).bind fun (pm, cs) =>
            if cs.isEmpty && validDate y m d then
              some { year := y, month := m, day := d, hour := hour24 h12 pm, minute := mins }
            else none
  go (date_str ++ " " ++ time_str).data

/-- `converted_dt.strftime("%H:%M")` for the in-range datetimes pytz
returns. -/
def formatHM (dt : NaiveDT) : String :=
  pad2 dt.hour ++ ":" ++ pad2 dt.minute

/-- `utils.convert_time_zone`.  Total by construction: every failure
path of the Python `try` block (parse error, timezone error) falls back
to the original `time_str`, mirroring the `except` clause. -/
def convert_time_zone (env : TZEnv) (date_str time_str from_zone_str to_zone_str : String) :
    String :=
  if time_str = "" ∨ date_str = "" then time_str
  else if pyLower time_str = "all day" ∨ pyLower time_str = "tentative" then time_str
  else
    match strptimeDMYIMp date_str time_str with
    | none => time_str
    | some naive_dt =>
      match env from_zone_str to_zone_str naive_dt with
      | none => time_str
      | some converted_dt => formatHM converted_dt

/-! ## Data model of the normalizer -/

/-- Modelled from the spec: `config.py` is not among the sources; the
spec describes environment-driven configuration consisting of a target
timezone and the allow-lists of currency codes and impact levels used by
the record filter (`config.TARGET_TIMEZONE`,
`config.ALLOWED_CURRENCY_CODES`, `config.ALLOWED_IMPACT_COLORS`). -/
structure Config where
  TARGET_TIMEZONE : String
  ALLOWED_CURRENCY_CODES : List String
  ALLOWED_IMPACT_COLORS : List String

/-- A raw scraped row: a dict whose possible keys are the ten RawRow
fields; `none` means the key is absent, mirroring `"k" in row` /
`row.get(k, "")` / `len(row)`. -/
structure RawRow where
  date : Option String := none
  time : Option String := none
  day : Option String := none
  currency : Option String := none
  impact : Option String := none
  event : Option String := none
  detail : Option String := none
  actual : Option String := none
  forecast : Option String := none
  previous : Option String := none
deriving DecidableEq, Repr

def b2n (b : Bool) : Nat := if b then 1 else 0

/-- `len(row)`: the number of keys present in the dict. -/
def rowLen (r : RawRow) : Nat :=
  b2n r.date.isSome + b2n r.time.isSome + b2n r.day.isSome + b2n r.currency.isSome +
  b2n r.impact.isSome + b2n r.event.isSome + b2n r.detail.isSome + b2n r.actual.isSome +
  b2n r.forecast.isSome + b2n r.previous.isSome

/-- An output row of `reformat_data`: the loop assigns all ten keys, so
the emitted dict is a fixed-shape record of strings. -/
structure NRecord where
  day : String
  date : String
  time : String
  currency : String
  impact : String
  event : String
  detail : String
  actual : String
  forecast : String
  previous : String
deriving DecidableEq, Repr

/-- The carried state threaded across the row loop
(`current_date`, `current_time`, `current_day`). -/
structure NState where
  current_date : String
  current_time : String
  current_day : String
deriving DecidableEq, Repr

def initialNState : NState := { current_date := "", current_time := "", current_day := "" }

/-! ## `utils.reformat_data` -/

/-- Date step of the loop body: when the `date` key is present, not the
`"empty"` sentinel, and matches the date pattern, adopt the parsed
date/day; otherwise leave the carried state untouched. -/
def dateStep (year : String) (s : NState) (row : RawRow) : NState :=
  match row.date with
  | some d =>
    if d ≠ "empty" then
      match extract_date_parts d year with
      | some parts => { s with current_date := parts.date, current_day := parts.day }
      | none => s
    else s
  | none => s

/-- Time step of the loop body: a present non-sentinel `time` is trimmed
and adopted as the carried time; the sentinel (and an absent key) leave
it unchanged (the sentinel row's own `time` entry is overwritten later
by the converter, so only the carried value matters). -/
def timeStep (s : NState) (row : RawRow) : NState :=
  match row.time with
  | some t => if t ≠ "empty" then { s with current_time := pyStrip t } else s
  | none => s

/-- Both carried-state updates of the loop body, in source order. -/
def stateStep (year : String) (s : NState) (row : RawRow) : NState :=
  timeStep (dateStep year s row) row

/-- The candidate record assembled after the carried-state updates:
`day`/`date` from the carried state, `time` through the timezone
converter when a target timezone is configured (the source zone is the
hardcoded local `scraper_timezone = "Europe/Berlin"`), remaining fields
copied from the row with missing keys defaulting to `""`. -/
def buildRecord (cfg : Config) (env : TZEnv) (s : NState) (row : RawRow) : NRecord :=
  { day := s.current_day
    date := s.current_date
    time :=
      if cfg.TARGET_TIMEZONE ≠ "" then
        convert_time_zone env s.current_date s.current_time "Europe/Berlin" cfg.TARGET_TIMEZONE
      else s.current_time
    currency := row.currency.getD ""
    impact := row.impact.getD ""
    event := row.event.getD ""
    detail := row.detail.getD ""
    actual := row.actual.getD ""
    forecast := row.forecast.getD ""
    previous := row.previous.getD "" }

/-- `"empty"` sentinel replacement applied to one value. -/
def replaceEmptyStr (v : String) : String :=
  if v = "empty" then "" else v

/-- The loop `for key, value in new_row.items(): if value == "empty": ...`. -/
def replaceEmpties (r : NRecord) : NRecord :=
  { day := replaceEmptyStr r.day
    date := replaceEmptyStr r.date
    time := replaceEmptyStr r.time
    currency := replaceEmptyStr r.currency
    impact := replaceEmptyStr r.impact
    event := replaceEmptyStr r.event
    detail := replaceEmptyStr r.detail
    actual := replaceEmptyStr r.actual
    forecast := replaceEmptyStr r.forecast
    previous := replaceEmptyStr r.previous }

/-- `utils.filter_row` as the decision it implements: it returns the row
(truthy) when `currency` is in the currency allow-list and the
lower-cased `impact` is in the impact allow-list, and `False` otherwise. -/
def filter_row (cfg : Config) (r : NRecord) : Bool :=
  cfg.ALLOWED_CURRENCY_CODES.contains r.currency &&
  cfg.ALLOWED_IMPACT_COLORS.contains (pyLower r.impact)

/-- One iteration of the `reformat_data` loop: carried-state updates,
then the `len(row) == 1` section-header skip, then record assembly,
sentinel replacement and the filter. -/
def processRow (cfg : Config) (env : TZEnv) (year : String) (s : NState) (row : RawRow) :
    NState × Option NRecord :=
  let s' := stateStep year s row
  if rowLen row = 1 then (s', none)
  else
    let r := replaceEmpties (buildRecord cfg env s' row)
    if filter_row cfg r then (s', some r) else (s', none)

/-- The loop of `utils.reformat_data` from a given carried state. -/
def reformatGo (cfg : Config) (env : TZEnv) (year : String) :
    NState → List RawRow → List NRecord
  | _, [] => []
  | s, row :: rest =>
    match processRow cfg env year s row with
    | (s', some r) => r :: reformatGo cfg env year s' rest
    | (s', none) => reformatGo cfg env year s' rest

/-- `utils.reformat_data`: carried state initialised to empty strings. -/
def reformat_data (cfg : Config) (env : TZEnv) (data : List RawRow) (year : String) :
    List NRecord :=
  reformatGo cfg env year initialNState data

/-- Carried state after a whole sequence of rows. -/
def carriedState (year : String) (rows : List RawRow) : NState :=
  rows.foldl (stateStep year) initialNState

/-! ## `utils.save_csv` and the Convex client -/

/-- Result of a Python call that may raise: `ok` is a normal return,
`exn` an exception carrying `str(e)`. -/
inductive PyResult (α : Type) where
  | ok (a : α)
  | exn (msg : String)
deriving DecidableEq, Repr

/-- `utils.save_csv`: reformat, return `False` on an empty result,
otherwise write one file per (month, year) and return `True`.  The
pandas/OS write is external; `writeExc` models an exception it raises
(only reachable once there are rows to write). -/
def save_csv (cfg : Config) (env : TZEnv) (writeExc : Option String)
    (data : List RawRow) (year : String) : PyResult Bool :=
  let structured_rows := reformat_data cfg env data year
  if structured_rows = [] then .ok false
  else
    match writeExc with
    | some e => .exn e
    | none => .ok true

/-- The rows written to `news/<month>_<year>_news.csv` when the write
succeeds: all structured rows, one line per record. -/
def csvFileRows (cfg : Config) (env : TZEnv) (data : List RawRow) (year : String) :
    List NRecord :=
  reformat_data cfg env data year

/-- `int(s)` on a string: optional sign then digits (`none` models the
`ValueError`). -/
def pyInt? (s : String) : Option Int :=
  match (pyStrip s).data with
  | [] => none
  | '-' :: ds => if ds ≠ [] && ds.all Char.isDigit then
      some (-(ds.foldl (fun a c => 10 * a + digitVal c) 0 : Nat)) else none
  | '+' :: ds => if ds ≠ [] && ds.all Char.isDigit then
      some ((ds.foldl (fun a c => 10 * a + digitVal c) 0 : Nat)) else none
  | ds => if ds.all Char.isDigit then
      some ((ds.foldl (fun a c => 10 * a + digitVal c) 0 : Nat)) else none

/-- A record in the shape `convex_client.transform_scraped_data` builds. -/
structure CleanRecord where
  scraped_at : String
  source : String
  month : String
  year : Int
  date : String
  time : String
  day : String
  currency : String
  impact : String
  event : String
  actual : String
  forecast : String
  previous : String
  detail_url : String
  event_key : String
  is_high_impact : Bool
  has_data : Bool
deriving DecidableEq, Repr

/-- The clean record built for one input record (`now` stands for
`datetime.now().isoformat()`). -/
def mkCleanRecord (now month : String) (yearInt : Int) (r : NRecord) : CleanRecord :=
  { scraped_at := now
    source := "forex_factory"
    month := month
    year := yearInt
    date := r.date
    time := r.time
    day := r.day
    currency := r.currency
    impact := r.impact
    event := r.event
    actual := r.actual
    forecast := r.forecast
    previous := r.previous
    detail_url := r.detail
    event_key := r.date ++ "-" ++ r.time ++ "-" ++ r.event
    is_high_impact := (pyLower r.impact) == "red"
    has_data := r.actual != "" || r.forecast != "" || r.previous != "" }

/-- The loop of `transform_scraped_data` once `int(year)` evaluates to
`y`: build a clean record per input record and keep only those with
truthy `event` and `date`
(`if clean_record["event"] and clean_record["date"]`). -/
def transformedRecords (raw_data : List NRecord) (month now : String) (y : Int) :
    List CleanRecord :=
  raw_data.filterMap fun r =>
    let c := mkCleanRecord now month y r
    if c.event != "" && c.date != "" then some c else none

/-- `convex_client.transform_scraped_data`.  `int(year)` is evaluated
inside the loop, so a non-numeric year raises (`none`) exactly when
there is at least one record; an empty input returns `[]`. -/
def transform_scraped_data (raw_data : List NRecord) (month year now : String) :
    Option (List CleanRecord) :=
  match raw_data with
  | [] => some []
  | _ =>
    match pyInt? year with
    | none => none
    | some y => some (transformedRecords raw_data month now y)

/-- Result dictionary of `convex_client.save_to_convex`. -/
structure ConvexSaveResult where
  success : Bool
  error : Option String := none
  saved_count : Nat := 0
  total_processed : Option Nat := none
deriving DecidableEq, Repr

set_option linter.unusedVariables false in
/-- `convex_client.save_to_convex`.  External effects are parameters:
`available` is `is_convex_available()` (a configured client object);
`writeOk i` is whether the per-record mutation for the `i`-th clean
record succeeds (failures are logged and skipped).  The delete-by-month
call and the batch-metadata write catch their own exceptions and do not
influence the returned result (`replace_existing` only gates that
self-contained delete call). -/
def save_to_convex (available : Bool) (writeOk : Nat → Bool)
    (data : List NRecord) (month year now : String) (replace_existing : Bool := false) :
    ConvexSaveResult :=
  if !available then
    { success := false
      error := some "Convex client not available. Check CONVEX_URL environment variable."
      saved_count := 0 }
  else
    match transform_scraped_data data month year now with
    | none =>
      { success := false
        error := some ("invalid literal for int() with base 10: " ++ year)
        saved_count := 0 }
    | some clean_data =>
      if clean_data = [] then
        { success := false
          error := some "No valid data to save after transformation"
          saved_count := 0 }
      else
        { success := true
          saved_count := (List.range clean_data.length).countP writeOk
          total_processed := some clean_data.length }

/-! ## `utils.save_data` -/

structure CsvOutcome where
  attempted : Bool
  success : Bool
  error : Option String
deriving DecidableEq, Repr

structure ConvexOutcome where
  attempted : Bool
  success : Bool
  error : Option String
  saved_count : Nat
deriving DecidableEq, Repr

structure SaveResults where
  csv : CsvOutcome
  convex : ConvexOutcome
deriving DecidableEq, Repr

/-- `utils.save_data`: the storage dispatcher.  `convexImportOk` models
whether `from convex_client import save_to_convex` succeeds
(`ImportError` otherwise); `convexAvailable` and `writeOk` are
`save_to_convex`'s external parameters; `csvWriteExc` is the CSV
writer's.  Each backend is attempted in its own `try`, independently. -/
def save_data (cfg : Config) (env : TZEnv)
    (csvWriteExc : Option String) (convexImportOk convexAvailable : Bool)
    (writeOk : Nat → Bool) (now : String)
    (data : List RawRow) (month year storage_method : String)
    (replace_existing : Bool := false) : SaveResults :=
  let csvRes :=
    if storage_method = "csv" ∨ storage_method = "both" then
      match save_csv cfg env csvWriteExc data year with
      | .ok b => { attempted := true, success := b, error := none : CsvOutcome }
      | .exn e => { attempted := true, success := false, error := some e }
    else { attempted := false, success := false, error := none }
  let convexRes :=
    if storage_method = "convex" ∨ storage_method = "both" then
      if !convexImportOk then
        { attempted := true, success := false, error := some "Convex client not available",
          saved_count := 0 : ConvexOutcome }
      else
        let structured_rows := reformat_data cfg env data year
        let convex_result :=
          save_to_convex convexAvailable writeOk structured_rows month year now replace_existing
        { attempted := true
          success := convex_result.success
          error := if convex_result.success then none
                   else some (convex_result.error.getD "Unknown error")
          saved_count := convex_result.saved_count }
    else { attempted := false, success := false, error := none, saved_count := 0 }
  { csv := csvRes, convex := convexRes }

/-! ## `app.py`: run status, trigger handlers and the scrape worker

The module-global `scraping_status` dict becomes an explicit
`ScrapingStatus` value.  A Flask handler reads the global and returns a
response; the only writes to the global happen inside the background
worker `scrape_month`, so a handler is a pure function of the status
that additionally reports which worker thread (if any) it starts. -/

structure ScrapingStatus where
  is_running : Bool
  current_month : Option String
  last_run : Option String
  last_error : Option String
  success_count : Nat
  error_count : Nat
deriving DecidableEq, Repr

/-- The initial value of the `scraping_status` global. -/
def initialStatus : ScrapingStatus :=
  { is_running := false, current_month := none, last_run := none, last_error := none,
    success_count := 0, error_count := 0 }

/-- Body of a response of the two trigger endpoints. -/
inductive ScrapeBody where
  | conflict (error : String) (current_month : Option String)
  | invalidMonth (error : String) (valid_months : List String)
  | started (message status check_status_at : String)
deriving DecidableEq, Repr

/-- What a trigger handler does: HTTP status code, JSON body, the month
argument of the `threading.Thread(target=scrape_month, ...)` it starts
(`none` when no thread is started), and the run status after the
handler itself returns (handlers never write the global). -/
structure HandlerResult where
  httpStatus : Nat
  body : ScrapeBody
  spawned : Option String
  statusAfter : ScrapingStatus
deriving DecidableEq, Repr

/-- `app.scrape_current` (`GET|POST /scrape`). -/
def scrape_current (st : ScrapingStatus) : HandlerResult :=
  if st.is_running then
    { httpStatus := 409
      body := .conflict "Scraping already in progress" st.current_month
      spawned := none
      statusAfter := st }
  else
    { httpStatus := 200
      body := .started "Scraping started for current month" "started" "/status"
      spawned := some "this"
      statusAfter := st }

/-- The `valid_months` list of `app.scrape_specific_month`. -/
def valid_months : List String :=
  ["this", "next", "january", "february", "march", "april",
   "may", "june", "july", "august", "september", "october",
   "november", "december"]

/-- `app.scrape_specific_month` (`GET|POST /scrape/<month>`): the
already-running check comes first, then the month validation, then the
thread start with `month.lower()`. -/
def scrape_specific_month (st : ScrapingStatus) (month : String) : HandlerResult :=
  if st.is_running then
    { httpStatus := 409
      body := .conflict "Scraping already in progress" st.current_month
      spawned := none
      statusAfter := st }
  else if !(valid_months.contains (pyLower month)) then
    { httpStatus := 400
      body := .invalidMonth ("Invalid month: " ++ month) valid_months
      spawned := none
      statusAfter := st }
  else
    { httpStatus := 200
      body := .started ("Scraping started for " ++ month) "started" "/status"
      spawned := some (pyLower month)
      statusAfter := st }

/-- Outcome of the body of `scrape_month`'s `try` block (driver,
parsing, saving are external): a successful run observed at timestamp
`now`, or an exception with message `err`. -/
inductive RunOutcome where
  | success (now : String)
  | failure (err : String)
deriving DecidableEq, Repr

/-- The writes `scrape_month` performs before its `try` block:
`is_running = True`, `current_month = month_param`, `last_error = None`. -/
def scrape_month_start (st : ScrapingStatus) (month_param : String) : ScrapingStatus :=
  { st with is_running := true, current_month := some month_param, last_error := none }

/-- The writes at the end of `scrape_month`: the success branch records
`last_run` and bumps `success_count`; the `except` branch records
`last_error` and bumps `error_count`; both reset `is_running` and
`current_month`. -/
def scrape_month_finish (st : ScrapingStatus) : RunOutcome → ScrapingStatus
  | .success now =>
    { st with is_running := false, current_month := none,
              last_run := some now, success_count := st.success_count + 1 }
  | .failure err =>
    { st with is_running := false, current_month := none,
              last_error := some err, error_count := st.error_count + 1 }

/-- A complete run of the background worker `app.scrape_month`. -/
def scrape_month (st : ScrapingStatus) (month_param : String) (outcome : RunOutcome) :
    ScrapingStatus :=
  scrape_month_finish (scrape_month_start st month_param) outcome

/-! ### Interleaving model of trigger requests and worker threads

`threading.Thread(...).start()` only schedules the worker;
`scraping_status["is_running"] = True` is the worker's own first
statement.  The model below is generous to the code: each whole handler
call (its check of `is_running` plus the thread start) is one atomic
step, and the worker's initial writes are another.  `startedUnits`
counts worker threads started. -/

structure SysState where
  status : ScrapingStatus
  pendingWorkers : List String
  startedUnits : Nat
deriving DecidableEq, Repr

def initialSys : SysState :=
  { status := initialStatus, pendingWorkers := [], startedUnits := 0 }

/-- One trigger request to `/scrape`, served atomically. -/
def stepTrigger (s : SysState) : SysState :=
  let r := scrape_current s.status
  { status := r.statusAfter
    pendingWorkers := s.pendingWorkers ++ r.spawned.toList
    startedUnits := s.startedUnits + r.spawned.toList.length }

/-- The first statements of a previously started worker thread run:
it marks the run as in progress. -/
def stepWorkerBegin (s : SysState) : SysState :=
  match s.pendingWorkers with
  | [] => s
  | m :: rest =>
    { s with status := scrape_month_start s.status m, pendingWorkers := rest }

/-! ## Derived notions used by the stated properties -/

/-- Number of non-empty fields of an output record. -/
def countNonEmpty (r : NRecord) : Nat :=
  b2n (r.day != "") + b2n (r.date != "") + b2n (r.time != "") + b2n (r.currency != "") +
  b2n (r.impact != "") + b2n (r.event != "") + b2n (r.detail != "") + b2n (r.actual != "") +
  b2n (r.forecast != "") + b2n (r.previous != "")

/-- The date-pattern match a row contributes to the carried state: its
`date` field must be present, not the inherit sentinel, and match the
`<weekday-abbrev> <month-abbrev> <day-number>` pattern. -/
def dateMatchOf (year : String) (row : RawRow) : Option DateParts :=
  match row.date with
  | some d => if d = "empty" then none else extract_date_parts d year
  | none => none

/-- The date/day contributed by the most recent row of `rows` whose date
text matched the pattern, if any. -/
def lastDateMatch (year : String) (rows : List RawRow) : Option DateParts :=
  rows.foldl (fun acc row => (dateMatchOf year row).or acc) none

/-! ## Concrete fixtures used by witnesses -/

/-- A concrete configuration for witness evaluation (allow-lists as the
spec describes them: currency codes and impact color codes). -/
def sampleConfig : Config :=
  { TARGET_TIMEZONE := "", ALLOWED_CURRENCY_CODES := ["USD"],
    ALLOWED_IMPACT_COLORS := ["red"] }

/-- A timezone database stub that rejects every zone. -/
def stubTZEnv : TZEnv := fun _ _ _ => none

def sampleRow1 : RawRow :=
  { date := some "Sun Jun 1", time := some "3:00am", currency := some "USD",
    impact := some "Red", event := some "CPI" }

def sampleRow2 : RawRow :=
  { date := some "empty", time := some "empty", currency := some "USD",
    impact := some "Red", event := some "Follow-up" }

/-- A date-only separator row (a single dict key). -/
def sampleHeaderRow : RawRow := { date := some "Mon Jun 2" }

/-- A row whose date text does not match the date pattern. -/
def sampleNoMatchRow : RawRow :=
  { date := some "Holiday", time := some "9:00am", currency := some "USD",
    impact := some "Red", event := some "Closed" }

/-- The record `reformat_data` emits for `sampleRow2` after `sampleRow1`. -/
def sampleOut : NRecord :=
  { day := "Sun", date := "01/06/2025", time := "3:00am", currency := "USD",
    impact := "Red", event := "Follow-up", detail := "", actual := "",
    forecast := "", previous := "" }

/-- A normalized record with an empty `event` field. -/
def sampleEmptyEventRec : NRecord :=
  { day := "Sun", date := "01/06/2025", time := "", currency := "USD",
    impact := "Red", event := "", detail := "", actual := "",
    forecast := "", previous := "" }

/-! ## Shared helper lemmas -/

theorem replaceEmptyStr_ne_empty (v : String) : replaceEmptyStr v ≠ "empty" := by
  unfold replaceEmptyStr
  split
  · decide
  · assumption

/-- The carried-state update of one loop iteration happens before the
section-header skip and the filter, so it is performed whether or not
the row is emitted. -/
theorem processRow_fst (cfg : Config) (env : TZEnv) (year : String) (s : NState) (row : RawRow) :
    (processRow cfg env year s row).1 = stateStep year s row := by
  unfold processRow
  dsimp only
  split
  · rfl
  · split <;> rfl

/-- An emitted record is the assembled candidate after sentinel
replacement, and it passed the filter. -/
theorem processRow_emit (cfg : Config) (env : TZEnv) (year : String) (s : NState) (row : RawRow)
    (rec : NRecord) (h : (processRow cfg env year s row).2 = some rec) :
    rec = replaceEmpties (buildRecord cfg env (stateStep year s row) row) ∧
    filter_row cfg rec = true ∧ rowLen row ≠ 1 := by
  unfold processRow at h
  dsimp only at h
  by_cases h1 : rowLen row = 1
  · rw [if_pos h1] at h; simp at h
  · rw [if_neg h1] at h
    by_cases h2 : filter_row cfg (replaceEmpties (buildRecord cfg env (stateStep year s row) row))
    · rw [if_pos h2] at h
      simp only [Option.some.injEq] at h
      subst h
      exact ⟨rfl, h2, h1⟩
    · rw [if_neg h2] at h; simp at h

/-- Every record in the output of the normalization loop was emitted by
some iteration. -/
theorem mem_reformatGo_emit (cfg : Config) (env : TZEnv) (year : String) :
    ∀ (data : List RawRow) (s : NState) (rec : NRecord),
      rec ∈ reformatGo cfg env year s data →
      ∃ s' row, (processRow cfg env year s' row).2 = some rec := by
  intro data
  induction data with
  | nil => intro s rec h; simp [reformatGo] at h
  | cons row rest ih =>
    intro s rec h
    rcases hp : processRow cfg env year s row with ⟨s₁, o⟩
    cases o with
    | some r =>
      simp only [reformatGo, hp] at h
      rcases List.mem_cons.mp h with h | h
      · exact ⟨s, row, by rw [hp, h]⟩
      · exact ih s₁ rec h
    | none =>
      simp only [reformatGo, hp] at h
      exact ih s₁ rec h

/-! ## Claim C5: no `"empty"` sentinel survives into the output -/

/-- Claim C5: for every sequence of raw rows and every target year, no
field of any emitted record equals the literal string `"empty"`: the
sentinel is replaced by the empty string before the record is emitted. -/
theorem c5_no_empty_sentinel (cfg : Config) (env : TZEnv) (data : List RawRow) (year : String)
    (rec : NRecord) (h : rec ∈ reformat_data cfg env data year) :
    rec.day ≠ "empty" ∧ rec.date ≠ "empty" ∧ rec.time ≠ "empty" ∧ rec.currency ≠ "empty" ∧
    rec.impact ≠ "empty" ∧ rec.event ≠ "empty" ∧ rec.detail ≠ "empty" ∧ rec.actual ≠ "empty" ∧
    rec.forecast ≠ "empty" ∧ rec.previous ≠ "empty" := by
  unfold reformat_data at h
  obtain ⟨s', row, hp⟩ := mem_reformatGo_emit cfg env year data initialNState rec h
  obtain ⟨heq, -, -⟩ := processRow_emit cfg env year s' row rec hp
  subst heq
  exact ⟨replaceEmptyStr_ne_empty _, replaceEmptyStr_ne_empty _, replaceEmptyStr_ne_empty _,
    replaceEmptyStr_ne_empty _, replaceEmptyStr_ne_empty _, replaceEmptyStr_ne_empty _,
    replaceEmptyStr_ne_empty _, replaceEmptyStr_ne_empty _, replaceEmptyStr_ne_empty _,
    replaceEmptyStr_ne_empty _⟩

/-- Claim C5 witness: the record emitted for the all-sentinel follow-up
row of the concrete scenario. -/
theorem c5_no_empty_sentinel_witness :
    sampleOut.day ≠ "empty" ∧ sampleOut.date ≠ "empty" ∧ sampleOut.time ≠ "empty" ∧
    sampleOut.currency ≠ "empty" ∧ sampleOut.impact ≠ "empty" ∧ sampleOut.event ≠ "empty" ∧
    sampleOut.detail ≠ "empty" ∧ sampleOut.actual ≠ "empty" ∧ sampleOut.forecast ≠ "empty" ∧
    sampleOut.previous ≠ "empty" :=
  c5_no_empty_sentinel sampleConfig stubTZEnv [sampleRow1, sampleRow2] "2025" sampleOut
    (by decide)

/-! ## Claim C4: section-header rows never reach the output -/

/-- Claim C4: provided the empty string is in neither allow-list (the
allow-lists hold currency codes and impact color names), a row reduced
to a single populated field never appears in the output — every emitted
record has at least two non-empty fields; the carried-state updates of
the date and time steps are applied whether or not the row is
discarded; and a single-key section-header row is always discarded. -/
theorem c4_section_header_discard (cfg : Config) (env : TZEnv) (data : List RawRow)
    (year : String)
    (hc : "" ∉ cfg.ALLOWED_CURRENCY_CODES) (hi : "" ∉ cfg.ALLOWED_IMPACT_COLORS) :
    (∀ rec ∈ reformat_data cfg env data year, countNonEmpty rec ≠ 1) ∧
    (∀ (s : NState) (row : RawRow), (processRow cfg env year s row).1 = stateStep year s row) ∧
    (∀ (s : NState) (row : RawRow), rowLen row = 1 →
      (processRow cfg env year s row).2 = none) := by
  refine ⟨?_, fun s row => processRow_fst cfg env year s row, fun s row h1 => ?_⟩
  · intro rec hmem
    unfold reformat_data at hmem
    obtain ⟨s', row, hp⟩ := mem_reformatGo_emit cfg env year data initialNState rec hmem
    obtain ⟨-, hf, -⟩ := processRow_emit cfg env year s' row rec hp
    unfold filter_row at hf
    rw [Bool.and_eq_true] at hf
    have hcur : rec.currency ∈ cfg.ALLOWED_CURRENCY_CODES := by simpa using hf.1
    have himp : pyLower rec.impact ∈ cfg.ALLOWED_IMPACT_COLORS := by simpa using hf.2
    have hcne : rec.currency ≠ "" := fun h => hc (h ▸ hcur)
    have hine : rec.impact ≠ "" := by
      intro h
      apply hi
      have hl : pyLower rec.impact = "" := by rw [h]; rfl
      exact hl ▸ himp
    unfold countNonEmpty
    have h4 : b2n (rec.currency != "") = 1 := by simp [b2n, bne_iff_ne.mpr hcne]
    have h5 : b2n (rec.impact != "") = 1 := by simp [b2n, bne_iff_ne.mpr hine]
    omega
  · unfold processRow
    dsimp only
    rw [if_pos h1]

/-- Claim C4 witness: the emitted scenario record has more than one
populated field; the single-key separator row is discarded while its
state update still happens. -/
theorem c4_section_header_discard_witness :
    countNonEmpty sampleOut ≠ 1 ∧
    (processRow sampleConfig stubTZEnv "2025" initialNState sampleHeaderRow).2 = none ∧
    (processRow sampleConfig stubTZEnv "2025" initialNState sampleHeaderRow).1
      = stateStep "2025" initialNState sampleHeaderRow := by
  have h := c4_section_header_discard sampleConfig stubTZEnv [sampleRow1, sampleRow2] "2025"
    (by decide) (by decide)
  exact ⟨h.1 sampleOut (by decide), h.2.2 _ _ (by decide), h.2.1 _ _⟩

/-! ## Carried-state characterization (towards claim C3) -/

theorem timeStep_date_day (s : NState) (row : RawRow) :
    (timeStep s row).current_date = s.current_date ∧
    (timeStep s row).current_day = s.current_day := by
  unfold timeStep
  cases hrt : row.time with
  | none => exact ⟨rfl, rfl⟩
  | some t =>
    dsimp only
    split <;> exact ⟨rfl, rfl⟩

theorem dateStep_date_day (year : String) (s : NState) (row : RawRow) :
    (dateStep year s row).current_date
      = (dateMatchOf year row).elim s.current_date DateParts.date ∧
    (dateStep year s row).current_day
      = (dateMatchOf year row).elim s.current_day DateParts.day := by
  unfold dateStep dateMatchOf
  cases hrd : row.date with
  | none => exact ⟨rfl, rfl⟩
  | some d =>
    dsimp only
    by_cases hd : d = "empty"
    · rw [if_neg (not_not_intro hd), if_pos hd]
      exact ⟨rfl, rfl⟩
    · rw [if_pos hd, if_neg hd]
      cases hext : extract_date_parts d year with
      | none => exact ⟨rfl, rfl⟩
      | some p => exact ⟨rfl, rfl⟩

theorem stateStep_date_day (year : String) (s : NState) (row : RawRow) :
    (stateStep year s row).current_date
      = (dateMatchOf year row).elim s.current_date DateParts.date ∧
    (stateStep year s row).current_day
      = (dateMatchOf year row).elim s.current_day DateParts.day := by
  unfold stateStep
  obtain ⟨h1, h2⟩ := timeStep_date_day (dateStep year s row) row
  obtain ⟨h3, h4⟩ := dateStep_date_day year s row
  exact ⟨h1.trans h3, h2.trans h4⟩

theorem foldl_or_shift (year : String) :
    ∀ (rows : List RawRow) (a : Option DateParts),
      rows.foldl (fun acc row => (dateMatchOf year row).or acc) a
        = (rows.foldl (fun acc row => (dateMatchOf year row).or acc) none).or a := by
  intro rows
  induction rows with
  | nil => intro a; simp
  | cons row rest ih =>
    intro a
    rw [List.foldl_cons, List.foldl_cons, ih ((dateMatchOf year row).or a),
        ih ((dateMatchOf year row).or none)]
    simp [Option.or_assoc]

/-- The carried date/day after a fold of the per-row state updates is
exactly the contribution of the most recent matching row (or the
starting values when none matched). -/
theorem foldl_stateStep_date_day (year : String) :
    ∀ (rows : List RawRow) (s : NState),
      (rows.foldl (stateStep year) s).current_date
        = (rows.foldl (fun acc row => (dateMatchOf year row).or acc) none).elim
            s.current_date DateParts.date ∧
      (rows.foldl (stateStep year) s).current_day
        = (rows.foldl (fun acc row => (dateMatchOf year row).or acc) none).elim
            s.current_day DateParts.day := by
  intro rows
  induction rows with
  | nil => intro s; exact ⟨rfl, rfl⟩
  | cons row rest ih =>
    intro s
    rw [List.foldl_cons, List.foldl_cons]
    obtain ⟨ih1, ih2⟩ := ih (stateStep year s row)
    obtain ⟨hs1, hs2⟩ := stateStep_date_day year s row
    rw [ih1, ih2, hs1, hs2,
        foldl_or_shift year rest ((dateMatchOf year row).or none), Option.or_none]
    constructor <;>
      cases hL : rest.foldl (fun acc row => (dateMatchOf year row).or acc) none <;>
        simp [Option.or]

theorem findSome?_exists {α β : Type _} (l : List α) (f : α → Option β) (b : β)
    (h : l.findSome? f = some b) : ∃ a ∈ l, f a = some b := by
  induction l with
  | nil => simp [List.findSome?] at h
  | cons x xs ih =>
    rw [List.findSome?_cons] at h
    cases hf : f x with
    | some v =>
      rw [hf] at h
      simp at h
      exact ⟨x, List.mem_cons_self .., by rw [hf, h]⟩
    | none =>
      rw [hf] at h
      simp at h
      obtain ⟨a, ha, hfa⟩ := ih h
      exact ⟨a, List.mem_cons_of_mem _ ha, hfa⟩

theorem matchAbbrev_mem (abbrevs : List String) (cs : List Char) (a : String)
    (rest : List Char) (h : matchAbbrev abbrevs cs = some (a, rest)) : a ∈ abbrevs := by
  unfold matchAbbrev at h
  obtain ⟨x, hx, hfx⟩ := findSome?_exists _ _ _ h
  by_cases hc : cs.take x.length = x.data
  · rw [if_pos hc] at hfx
    simp at hfx
    exact hfx.1 ▸ hx
  · rw [if_neg hc] at hfx
    cases hfx

theorem tryMatchAt_day_mem (cs : List Char) (a : String) (m n : Nat)
    (h : tryMatchAt cs = some (a, m, n)) : a ∈ dayAbbrevs := by
  unfold tryMatchAt at h
  cases h1 : matchAbbrev dayAbbrevs cs with
  | none => rw [h1] at h; cases h
  | some v =>
    obtain ⟨dayA, cs1⟩ := v
    rw [h1] at h
    dsimp only at h
    cases h2 : skipWS1 cs1 with
    | none => rw [h2] at h; cases h
    | some cs2 =>
      rw [h2] at h
      dsimp only at h
      cases h3 : matchAbbrev monthAbbrevs cs2 with
      | none => rw [h3] at h; cases h
      | some w =>
        obtain ⟨monA, cs3⟩ := w
        rw [h3] at h
        dsimp only at h
        cases h4 : skipWS1 cs3 with
        | none => rw [h4] at h; cases h
        | some cs4 =>
          rw [h4] at h
          dsimp only at h
          cases h5 : matchDayNum cs4 with
          | none => rw [h5] at h; cases h
          | some n' =>
            rw [h5] at h
            simp at h
            exact h.1 ▸ matchAbbrev_mem dayAbbrevs cs dayA cs1 h1

theorem searchDate_day_mem (cs : List Char) :
    ∀ (b : Bool) (a : String) (m n : Nat),
      searchDate b cs = some (a, m, n) → a ∈ dayAbbrevs := by
  induction cs with
  | nil => intro b a m n h; cases h
  | cons c rest ih =>
    intro b a m n h
    rw [searchDate] at h
    cases htry : (if b then none else tryMatchAt (c :: rest)) with
    | some r =>
      rw [htry] at h
      dsimp only at h
      obtain ⟨r1, r2, r3⟩ := r
      simp at h
      obtain ⟨ha, -, -⟩ := h
      by_cases hb : b
      · rw [if_pos hb] at htry; cases htry
      · rw [if_neg hb] at htry
        exact ha ▸ tryMatchAt_day_mem (c :: rest) r1 r2 r3 htry
    | none =>
      rw [htry] at h
      dsimp only at h
      exact ih _ a m n h

/-- A successful date-pattern extraction never produces the sentinel as
date or day: the date has the shape `dd/mm/<year>` (length at least 6)
and the day is one of the seven weekday abbreviations. -/
theorem extract_some_ne_empty (text year : String) (p : DateParts)
    (h : extract_date_parts text year = some p) : p.date ≠ "empty" ∧ p.day ≠ "empty" := by
  unfold extract_date_parts at h
  cases hs : searchDate false text.data with
  | none => rw [hs] at h; cases h
  | some r =>
    obtain ⟨a, m, n⟩ := r
    rw [hs] at h
    dsimp only at h
    simp at h
    constructor
    · intro hcontra
      rw [← h] at hcontra
      have hdata := congrArg String.data hcontra
      simp only [formatDMY] at hdata
      simp [List.cons_append] at hdata
    · have hmem := searchDate_day_mem text.data false a m n hs
      have hall : ∀ x ∈ dayAbbrevs, x ≠ "empty" := by decide
      rw [← h]
      exact hall a hmem

theorem foldl_or_extract (year : String) :
    ∀ (rows : List RawRow) (a : Option DateParts) (p : DateParts),
      rows.foldl (fun acc row => (dateMatchOf year row).or acc) a = some p →
      (∃ t, extract_date_parts t year = some p) ∨ a = some p := by
  intro rows
  induction rows with
  | nil => intro a p h; exact Or.inr h
  | cons row rest ih =>
    intro a p h
    rw [List.foldl_cons] at h
    rcases ih _ p h with h' | h'
    · exact Or.inl h'
    · cases hdm : dateMatchOf year row with
      | some q =>
        rw [hdm] at h'
        simp [Option.or] at h'
        unfold dateMatchOf at hdm
        cases hrd : row.date with
        | none => rw [hrd] at hdm; cases hdm
        | some d =>
          rw [hrd] at hdm
          dsimp only at hdm
          by_cases hd : d = "empty"
          · rw [if_pos hd] at hdm; cases hdm
          · rw [if_neg hd] at hdm
            exact Or.inl ⟨d, by rw [hdm, h']⟩
      | none =>
        rw [hdm] at h'
        simp [Option.none_or] at h'
        exact Or.inr h'

theorem reformatGo_append (cfg : Config) (env : TZEnv) (year : String) :
    ∀ (pre : List RawRow) (s : NState) (rest : List RawRow),
      reformatGo cfg env year s (pre ++ rest)
        = reformatGo cfg env year s pre ++
          reformatGo cfg env year (pre.foldl (stateStep year) s) rest := by
  intro pre
  induction pre with
  | nil => intro s rest; rfl
  | cons row pre' ih =>
    intro s rest
    rw [List.cons_append]
    rcases hp : processRow cfg env year s row with ⟨s₁, o⟩
    have hs₁ : s₁ = stateStep year s row := by
      have hf := processRow_fst cfg env year s row
      rw [hp] at hf
      exact hf
    cases o with
    | some r =>
      simp only [reformatGo, hp]
      rw [ih s₁ rest, List.foldl_cons, hs₁, List.cons_append]
    | none =>
      simp only [reformatGo, hp]
      rw [ih s₁ rest, List.foldl_cons, hs₁]

/-! ## Claim C3: sentinel dates inherit the most recent matching date -/

/-- Claim C3: processing is a left-to-right pass whose carried state
after a prefix is the fold of the per-row updates (first conjunct); a
row whose `date` is the `"empty"` sentinel, when emitted, carries the
date and day of the most recent earlier row whose date text matched the
pattern — formatted `dd/mm/<year>` — or the empty strings when no
earlier row matched (second conjunct); and a row whose date text fails
to match the pattern leaves the carried date/day state unchanged (third
conjunct). -/
theorem c3_date_inheritance (cfg : Config) (env : TZEnv) (year : String) :
    (∀ (pre rest : List RawRow),
      reformat_data cfg env (pre ++ rest) year
        = reformat_data cfg env pre year ++
          reformatGo cfg env year (carriedState year pre) rest) ∧
    (∀ (pre : List RawRow) (row : RawRow) (rec : NRecord),
      row.date = some "empty" →
      (processRow cfg env year (carriedState year pre) row).2 = some rec →
      rec.date = (lastDateMatch year pre).elim "" DateParts.date ∧
      rec.day = (lastDateMatch year pre).elim "" DateParts.day) ∧
    (∀ (s : NState) (row : RawRow) (d : String),
      row.date = some d → d ≠ "empty" → extract_date_parts d year = none →
      (processRow cfg env year s row).1.current_date = s.current_date ∧
      (processRow cfg env year s row).1.current_day = s.current_day) := by
  refine ⟨fun pre rest => reformatGo_append cfg env year pre initialNState rest, ?_, ?_⟩
  · intro pre row rec hdate hemit
    obtain ⟨heq, -, -⟩ := processRow_emit cfg env year (carriedState year pre) row rec hemit
    have hdm : dateMatchOf year row = none := by
      unfold dateMatchOf
      rw [hdate]
      simp
    obtain ⟨hs1, hs2⟩ := stateStep_date_day year (carriedState year pre) row
    rw [hdm] at hs1 hs2
    simp only [Option.elim] at hs1 hs2
    obtain ⟨hc1, hc2⟩ := foldl_stateStep_date_day year pre initialNState
    subst heq
    have hdd : (replaceEmpties
        (buildRecord cfg env (stateStep year (carriedState year pre) row) row)).date
        = replaceEmptyStr (stateStep year (carriedState year pre) row).current_date := rfl
    have hdy : (replaceEmpties
        (buildRecord cfg env (stateStep year (carriedState year pre) row) row)).day
        = replaceEmptyStr (stateStep year (carriedState year pre) row).current_day := rfl
    rw [hdd, hdy, hs1, hs2, show carriedState year pre
        = pre.foldl (stateStep year) initialNState from rfl, hc1, hc2,
        show lastDateMatch year pre
        = pre.foldl (fun acc row => (dateMatchOf year row).or acc) none from rfl]
    cases hL : pre.foldl (fun acc row => (dateMatchOf year row).or acc) none with
    | none =>
      constructor <;> simp [initialNState, replaceEmptyStr]
    | some p =>
      have hex := foldl_or_extract year pre none p hL
      rcases hex with ⟨t, ht⟩ | hbad
      · obtain ⟨hne1, hne2⟩ := extract_some_ne_empty t year p ht
        constructor <;> simp [Option.elim, replaceEmptyStr, hne1, hne2]
      · cases hbad
  · intro s row d hrd hdne hext
    have hdm : dateMatchOf year row = none := by
      unfold dateMatchOf
      rw [hrd]
      dsimp only
      rw [if_neg hdne]
      exact hext
    have hfst := processRow_fst cfg env year s row
    obtain ⟨hs1, hs2⟩ := stateStep_date_day year s row
    rw [hdm] at hs1 hs2
    simp only [Option.elim] at hs1 hs2
    rw [hfst]
    exact ⟨hs1, hs2⟩

/-- Claim C3 witness: the concrete scenario — a sentinel-dated row after
a matching `"Sun Jun 1"` row inherits `01/06/2025`/`Sun`, and a row
dated `"Holiday"` (no pattern match) leaves the carried state as is. -/
theorem c3_date_inheritance_witness :
    (reformat_data sampleConfig stubTZEnv ([sampleRow1] ++ [sampleRow2]) "2025"
      = reformat_data sampleConfig stubTZEnv [sampleRow1] "2025" ++
        reformatGo sampleConfig stubTZEnv "2025" (carriedState "2025" [sampleRow1])
          [sampleRow2]) ∧
    sampleOut.date = (lastDateMatch "2025" [sampleRow1]).elim "" DateParts.date ∧
    sampleOut.day = (lastDateMatch "2025" [sampleRow1]).elim "" DateParts.day ∧
    (processRow sampleConfig stubTZEnv "2025" (carriedState "2025" [sampleRow1, sampleRow2])
        sampleNoMatchRow).1.current_date
      = (carriedState "2025" [sampleRow1, sampleRow2]).current_date := by
  have h := c3_date_inheritance sampleConfig stubTZEnv "2025"
  have h2 := h.2.1 [sampleRow1] sampleRow2 sampleOut rfl (by decide)
  have h3 := h.2.2 (carriedState "2025" [sampleRow1, sampleRow2]) sampleNoMatchRow "Holiday"
    rfl (by decide) (by decide)
  exact ⟨h.1 [sampleRow1] [sampleRow2], h2.1, h2.2, h3.1⟩

/-! ## Claim C2: conflict rejection while a run is in flight -/

/-- Claim C2: for every trigger request to `/scrape` or `/scrape/<month>`
arriving while `is_running` is true, the handler returns status 409 with
a body containing the error message and the month currently in flight,
starts no background thread, and leaves the run state unchanged. -/
theorem c2_conflict_rejection (st : ScrapingStatus) (month : String)
    (h : st.is_running = true) :
    scrape_current st =
      { httpStatus := 409
        body := .conflict "Scraping already in progress" st.current_month
        spawned := none
        statusAfter := st } ∧
    scrape_specific_month st month =
      { httpStatus := 409
        body := .conflict "Scraping already in progress" st.current_month
        spawned := none
        statusAfter := st } := by
  unfold scrape_current scrape_specific_month
  rw [h]
  exact ⟨rfl, rfl⟩

/-- Claim C2 witness: a concrete in-flight state, with a request to
`/scrape` and one to `/scrape/june`. -/
theorem c2_conflict_rejection_witness :
    scrape_current { initialStatus with is_running := true, current_month := some "this" } =
      { httpStatus := 409
        body := .conflict "Scraping already in progress" (some "this")
        spawned := none
        statusAfter := { initialStatus with is_running := true, current_month := some "this" } } ∧
    scrape_specific_month
        { initialStatus with is_running := true, current_month := some "this" } "june" =
      { httpStatus := 409
        body := .conflict "Scraping already in progress" (some "this")
        spawned := none
        statusAfter := { initialStatus with is_running := true, current_month := some "this" } } :=
  c2_conflict_rejection
    { initialStatus with is_running := true, current_month := some "this" } "june" rfl

/-! ## Claim C8: month-selector validation -/

/-- Claim C8 counterexample: a request to `/scrape/notamonth` (an
invalid selector) arriving while a run is in flight is answered with
409, not with the 400 the claim requires for every invalid selector:
the handler checks `is_running` before validating the month. -/
theorem c8_counterexample :
    valid_months.contains (pyLower "notamonth") = false ∧
    (scrape_specific_month
      { initialStatus with is_running := true, current_month := some "this" }
      "notamonth").httpStatus = 409 ∧
    (scrape_specific_month
      { initialStatus with is_running := true, current_month := some "this" }
      "notamonth").httpStatus ≠ 400 := by
  refine ⟨by decide, rfl, by decide⟩

/-- Claim C8 (amended): for every request to `/scrape/<month>` arriving
while no run is in flight, whose month selector (case-insensitive) is
not in the fixed enumerated set, the request is rejected with status 400
and a body containing the error and the list of valid months, and no
background thread is started. -/
theorem c8_invalid_month_rejected (st : ScrapingStatus) (month : String)
    (hrun : st.is_running = false)
    (hmon : valid_months.contains (pyLower month) = false) :
    scrape_specific_month st month =
      { httpStatus := 400
        body := .invalidMonth ("Invalid month: " ++ month) valid_months
        spawned := none
        statusAfter := st } := by
  unfold scrape_specific_month
  rw [hrun, hmon]
  rfl

/-- Claim C8 witness: the idle state and the selector `"NotAMonth"`. -/
theorem c8_invalid_month_rejected_witness :
    scrape_specific_month initialStatus "NotAMonth" =
      { httpStatus := 400
        body := .invalidMonth ("Invalid month: " ++ "NotAMonth") valid_months
        spawned := none
        statusAfter := initialStatus } :=
  c8_invalid_month_rejected initialStatus "NotAMonth" rfl (by decide)

/-! ## Claim C7: run completion updates the status exactly once -/

/-- Claim C7: for every completed run of the scrape worker, on both the
success and the failure path, `is_running` ends up false, exactly one of
`success_count`/`error_count` is incremented (both are monotonically
non-decreasing), `last_run` is updated on success and `last_error` is
recorded on failure. -/
theorem c7_run_completion (st : ScrapingStatus) (month : String) (outcome : RunOutcome) :
    (scrape_month st month outcome).is_running = false ∧
    (scrape_month st month outcome).current_month = none ∧
    (scrape_month st month outcome).success_count + (scrape_month st month outcome).error_count
      = st.success_count + st.error_count + 1 ∧
    st.success_count ≤ (scrape_month st month outcome).success_count ∧
    st.error_count ≤ (scrape_month st month outcome).error_count ∧
    (∀ now, outcome = .success now →
      (scrape_month st month outcome).success_count = st.success_count + 1 ∧
      (scrape_month st month outcome).error_count = st.error_count ∧
      (scrape_month st month outcome).last_run = some now) ∧
    (∀ err, outcome = .failure err →
      (scrape_month st month outcome).error_count = st.error_count + 1 ∧
      (scrape_month st month outcome).success_count = st.success_count ∧
      (scrape_month st month outcome).last_error = some err) := by
  cases outcome <;>
    simp [scrape_month, scrape_month_start, scrape_month_finish] <;> omega

/-- Claim C7 witness: one successful run and one failed run from the
initial status. -/
theorem c7_run_completion_witness :
    ((scrape_month initialStatus "this" (.success "t0")).success_count = 1 ∧
     (scrape_month initialStatus "this" (.success "t0")).error_count = 0 ∧
     (scrape_month initialStatus "this" (.success "t0")).last_run = some "t0") ∧
    ((scrape_month initialStatus "june" (.failure "boom")).error_count = 1 ∧
     (scrape_month initialStatus "june" (.failure "boom")).success_count = 0 ∧
     (scrape_month initialStatus "june" (.failure "boom")).last_error = some "boom") :=
  ⟨(c7_run_completion initialStatus "this" (.success "t0")).2.2.2.2.2.1 "t0" rfl,
   (c7_run_completion initialStatus "june" (.failure "boom")).2.2.2.2.2.2 "boom" rfl⟩

/-! ## Claim C1: the idle-to-running transition is not atomic -/

/-- Claim C1 failing trace: two trigger requests to `/scrape` are both
served before the first spawned worker thread runs its first statement.
Both handlers observe `is_running = false` (it is set only inside the
worker), both respond 200, and two worker threads are started — even in
this model that generously treats each whole handler call as one atomic
step.  The last conjunct shows the rejection works only once the worker
has already begun: if the worker's first statements run between the two
triggers, the second trigger starts nothing. -/
theorem c1_failing_trace :
    (scrape_current initialSys.status).httpStatus = 200 ∧
    (scrape_current (stepTrigger initialSys).status).httpStatus = 200 ∧
    (stepTrigger (stepTrigger initialSys)).startedUnits = 2 ∧
    (stepTrigger (stepTrigger initialSys)).status.is_running = false ∧
    (stepTrigger (stepWorkerBegin (stepTrigger initialSys))).startedUnits = 1 := by
  refine ⟨rfl, rfl, rfl, rfl, rfl⟩

/-! ## Claim C6: the timezone converter is total and falls back -/

/-- Claim C6: the timezone converter is total (it returns a string for
every input by construction) and never propagates a failure: an empty
date or time is returned unchanged, the non-clock sentinels `"all day"`
and `"tentative"` (any letter case) are returned unchanged, and on any
parse failure or timezone-database failure the original time string is
returned instead of an exception. -/
theorem c6_convert_time_zone_total (env : TZEnv) (d t fz tz : String) :
    ((t = "" ∨ d = "") → convert_time_zone env d t fz tz = t) ∧
    ((pyLower t = "all day" ∨ pyLower t = "tentative") → convert_time_zone env d t fz tz = t) ∧
    (strptimeDMYIMp d t = none → convert_time_zone env d t fz tz = t) ∧
    (∀ ndt, strptimeDMYIMp d t = some ndt → env fz tz ndt = none →
      convert_time_zone env d t fz tz = t) := by
  unfold convert_time_zone
  refine ⟨fun h => if_pos h, fun h => ?_, fun h => ?_, fun ndt h henv => ?_⟩
  · by_cases h1 : t = "" ∨ d = ""
    · exact if_pos h1
    · rw [if_neg h1, if_pos h]
  · by_cases h1 : t = "" ∨ d = ""
    · exact if_pos h1
    · rw [if_neg h1]
      by_cases h2 : pyLower t = "all day" ∨ pyLower t = "tentative"
      · rw [if_pos h2]
      · rw [if_neg h2, h]
  · by_cases h1 : t = "" ∨ d = ""
    · exact if_pos h1
    · rw [if_neg h1]
      by_cases h2 : pyLower t = "all day" ∨ pyLower t = "tentative"
      · rw [if_pos h2]
      · rw [if_neg h2, h]
        simp only [henv]

/-- Claim C6 witness: the empty-time case, the sentinel `"All Day"`, an
unparseable time, and a parseable time whose zone conversion fails (a
timezone database rejecting every zone name). -/
theorem c6_convert_time_zone_total_witness :
    convert_time_zone (fun _ _ _ => none) "01/07/2025" "" "Europe/Berlin" "America/New_York"
      = "" ∧
    convert_time_zone (fun _ _ _ => none) "01/07/2025" "All Day" "Europe/Berlin"
      "America/New_York" = "All Day" ∧
    convert_time_zone (fun _ _ _ => none) "01/07/2025" "half past" "Europe/Berlin"
      "America/New_York" = "half past" ∧
    convert_time_zone (fun _ _ _ => none) "01/07/2025" "3:00am" "NoSuch/Zone" "America/New_York"
      = "3:00am" :=
  ⟨(c6_convert_time_zone_total (fun _ _ _ => none) "01/07/2025" "" "Europe/Berlin"
      "America/New_York").1 (Or.inl rfl),
   (c6_convert_time_zone_total (fun _ _ _ => none) "01/07/2025" "All Day" "Europe/Berlin"
      "America/New_York").2.1 (Or.inl (by decide)),
   (c6_convert_time_zone_total (fun _ _ _ => none) "01/07/2025" "half past" "Europe/Berlin"
      "America/New_York").2.2.1 (by decide),
   (c6_convert_time_zone_total (fun _ _ _ => none) "01/07/2025" "3:00am" "NoSuch/Zone"
      "America/New_York").2.2.2 { year := 2025, month := 7, day := 1, hour := 3, minute := 0 }
      (by decide) rfl⟩

/-! ## Claim C9: independent backend attempts -/

/-- Claim C9: with storage method `"both"` the dispatcher attempts both
backends, and each backend's outcome is independent of the other's
failure mode (the CSV writer raising does not change the Convex result,
and the Convex-side failure modes do not change the CSV result).  In the
concrete scenario — the tabular backend succeeds and the remote backend
is unconfigured — the result reports `csv.attempted = true`,
`csv.success = true`, `convex.attempted = true`, `convex.success =
false`, and a non-`none` Convex error message. -/
theorem c9_save_data_both (cfg : Config) (env : TZEnv) (csvWriteExc : Option String)
    (convexImportOk convexAvailable : Bool) (writeOk : Nat → Bool) (now : String)
    (data : List RawRow) (month year : String) (rep : Bool) :
    (save_data cfg env csvWriteExc convexImportOk convexAvailable writeOk now
        data month year "both" rep).csv.attempted = true ∧
    (save_data cfg env csvWriteExc convexImportOk convexAvailable writeOk now
        data month year "both" rep).convex.attempted = true ∧
    (∀ e', (save_data cfg env e' convexImportOk convexAvailable writeOk now
        data month year "both" rep).convex =
      (save_data cfg env csvWriteExc convexImportOk convexAvailable writeOk now
        data month year "both" rep).convex) ∧
    (∀ io' av' wo', (save_data cfg env csvWriteExc io' av' wo' now
        data month year "both" rep).csv =
      (save_data cfg env csvWriteExc convexImportOk convexAvailable writeOk now
        data month year "both" rep).csv) ∧
    (reformat_data cfg env data year ≠ [] → csvWriteExc = none → convexImportOk = true →
      convexAvailable = false →
      (save_data cfg env csvWriteExc convexImportOk convexAvailable writeOk now
          data month year "both" rep).csv.success = true ∧
      (save_data cfg env csvWriteExc convexImportOk convexAvailable writeOk now
          data month year "both" rep).convex.success = false ∧
      (save_data cfg env csvWriteExc convexImportOk convexAvailable writeOk now
          data month year "both" rep).convex.error =
        some "Convex client not available. Check CONVEX_URL environment variable.") := by
  refine ⟨?_, ?_, fun e' => rfl, fun io' av' wo' => rfl, fun hne hexc himp hav => ?_⟩
  · unfold save_data
    dsimp only
    rw [if_pos (show "both" = "csv" ∨ "both" = "both" from Or.inr rfl)]
    cases save_csv cfg env csvWriteExc data year <;> rfl
  · unfold save_data
    dsimp only
    rw [if_pos (show "both" = "convex" ∨ "both" = "both" from Or.inr rfl)]
    split <;> rfl
  · subst hexc himp hav
    refine ⟨?_, ?_, ?_⟩ <;>
      simp [save_data, save_csv, save_to_convex, hne]

/-- Claim C9 witness: one scrapeable row, a CSV writer that does not
raise, the Convex module importable but its client unconfigured. -/
theorem c9_save_data_both_witness :
    (save_data sampleConfig stubTZEnv none true false (fun _ => true) "t0"
        [sampleRow1] "June" "2025" "both" true).csv.attempted = true ∧
    (save_data sampleConfig stubTZEnv none true false (fun _ => true) "t0"
        [sampleRow1] "June" "2025" "both" true).convex.attempted = true ∧
    (save_data sampleConfig stubTZEnv none true false (fun _ => true) "t0"
        [sampleRow1] "June" "2025" "both" true).csv.success = true ∧
    (save_data sampleConfig stubTZEnv none true false (fun _ => true) "t0"
        [sampleRow1] "June" "2025" "both" true).convex.success = false ∧
    (save_data sampleConfig stubTZEnv none true false (fun _ => true) "t0"
        [sampleRow1] "June" "2025" "both" true).convex.error =
      some "Convex client not available. Check CONVEX_URL environment variable." := by
  have h := c9_save_data_both sampleConfig stubTZEnv none true false (fun _ => true) "t0"
    [sampleRow1] "June" "2025" true
  have hs := h.2.2.2.2 (by decide) rfl rfl rfl
  exact ⟨h.1, h.2.1, hs.1, hs.2.1, hs.2.2⟩

/-! ## Claim C10: the remote backend silently excludes incomplete records -/

theorem transformedRecords_length (month now : String) (y : Int) :
    ∀ rows : List NRecord,
      (transformedRecords rows month now y).length
        = rows.countP (fun x => x.event != "" && x.date != "") := by
  intro rows
  induction rows with
  | nil => rfl
  | cons r rest ih =>
    unfold transformedRecords at ih ⊢
    rw [List.filterMap_cons, List.countP_cons]
    dsimp only at ih ⊢
    by_cases hc : (r.event != "" && r.date != "") = true
    · have hc' : ((mkCleanRecord now month y r).event != ""
          && (mkCleanRecord now month y r).date != "") = true := hc
      rw [if_pos hc, if_pos hc', List.length_cons, ih]
    · have hc' : ¬((mkCleanRecord now month y r).event != ""
          && (mkCleanRecord now month y r).date != "") = true := hc
      rw [if_neg hc, if_neg hc', ih, Nat.add_zero]

theorem transformedRecords_event_date (month now : String) (y : Int) (rows : List NRecord) :
    ∀ c ∈ transformedRecords rows month now y, c.event ≠ "" ∧ c.date ≠ "" := by
  intro c hc
  unfold transformedRecords at hc
  rw [List.mem_filterMap] at hc
  obtain ⟨r, hr, hfr⟩ := hc
  dsimp only at hfr
  by_cases hcond : ((mkCleanRecord now month y r).event != ""
      && (mkCleanRecord now month y r).date != "") = true
  · rw [if_pos hcond] at hfr
    rw [Bool.and_eq_true] at hcond
    injection hfr with hfr
    subst hfr
    exact ⟨bne_iff_ne.mp hcond.1, bne_iff_ne.mp hcond.2⟩
  · rw [if_neg hcond] at hfr
    cases hfr

/-- Claim C10: a normalized record whose `event` or `date` field is the
empty string is silently excluded from the remote-backend upload — its
clean form never appears in the transformed upload list, every uploaded
record has non-empty `event` and `date`, and `saved_count` ranges only
over the transformed list (bounded by the number of complete records) —
even though the same record is written to the tabular (CSV) output,
which carries all structured rows. -/
theorem c10_convex_drops_incomplete (rows : List NRecord) (month year now : String)
    (r : NRecord) (y : Int) (writeOk : Nat → Bool) (rep : Bool)
    (hr : r ∈ rows) (he : r.event = "" ∨ r.date = "") (hy : pyInt? year = some y) :
    transform_scraped_data rows month year now = some (transformedRecords rows month now y) ∧
    mkCleanRecord now month y r ∉ transformedRecords rows month now y ∧
    (∀ c ∈ transformedRecords rows month now y, c.event ≠ "" ∧ c.date ≠ "") ∧
    (save_to_convex true writeOk rows month year now rep).saved_count
      ≤ rows.countP (fun x => x.event != "" && x.date != "") ∧
    (∀ (cfg : Config) (env : TZEnv) (data : List RawRow) (year' : String),
      rows = reformat_data cfg env data year' → r ∈ csvFileRows cfg env data year') := by
  have htrans : transform_scraped_data rows month year now
      = some (transformedRecords rows month now y) := by
    cases rows with
    | nil => cases hr
    | cons a as => simp [transform_scraped_data, hy]
  refine ⟨htrans, ?_, transformedRecords_event_date month now y rows, ?_, ?_⟩
  · intro hmem
    obtain ⟨h1, h2⟩ := transformedRecords_event_date month now y rows _ hmem
    rcases he with he | he
    · exact h1 (show (mkCleanRecord now month y r).event = "" from he)
    · exact h2 (show (mkCleanRecord now month y r).date = "" from he)
  · unfold save_to_convex
    rw [htrans]
    simp only [Bool.not_true]
    rw [if_neg (by simp)]
    by_cases hclean : transformedRecords rows month now y = []
    · rw [if_pos hclean]
      exact Nat.zero_le _
    · rw [if_neg hclean]
      dsimp only
      calc (List.range (transformedRecords rows month now y).length).countP writeOk
          ≤ (List.range (transformedRecords rows month now y).length).length :=
            List.countP_le_length _
        _ = (transformedRecords rows month now y).length := List.length_range _
        _ = rows.countP (fun x => x.event != "" && x.date != "") :=
            transformedRecords_length month now y rows
  · intro cfg env data year' hrows
    show r ∈ reformat_data cfg env data year'
    rw [← hrows]
    exact hr

/-- Claim C10 witness: a record with an empty `event` next to a complete
record; the empty one is excluded from the upload list and not counted. -/
theorem c10_convex_drops_incomplete_witness :
    mkCleanRecord "t0" "June" 2025 sampleEmptyEventRec
      ∉ transformedRecords [sampleOut, sampleEmptyEventRec] "June" "t0" 2025 ∧
    (save_to_convex true (fun _ => true) [sampleOut, sampleEmptyEventRec] "June" "2025" "t0"
        true).saved_count
      ≤ [sampleOut, sampleEmptyEventRec].countP (fun x => x.event != "" && x.date != "") := by
  have h := c10_convex_drops_incomplete [sampleOut, sampleEmptyEventRec] "June" "2025" "t0"
    sampleEmptyEventRec 2025 (fun _ => true) true (by decide) (Or.inl rfl) (by decide)
  exact ⟨h.2.1, h.2.2.2.1⟩

end ForexScraper
